import Mathlib

/-!
# lunaboy native glue: keyboard mask and the process-wide audio session

A shallow embedding of `lib/lunaboy_native.c` and `native/lib/lunaboy_native.c`.

* C `int` values are `Int`; no arithmetic is performed on them, only comparisons.
* `SDL_AudioDeviceID` and pointers are `Nat`; `0` is the invalid device id and `NULL`.
* The two statics `g_audio_device` / `g_audio_stream` are fields of `Machine`, which also
  carries the log of SDL calls made so far (oldest first).
* Whatever SDL answers is an argument of the embedded function, so that a theorem quantified
  over these arguments holds for every behaviour of the platform.
-/

namespace Lunaboy

/-! ## Keyboard mask -/

/-- What `SDL_GetKeyboardState(&numkeys)` hands back: the returned array
(`none` when the pointer is `NULL`) and the value stored into `numkeys`. -/
structure KeyboardState where
  state : Option (List Bool)
  numkeys : Int

/-- The C read `state[k]`; `none` when the index is outside the array. -/
def readKey (state : List Bool) (k : Int) : Option Bool :=
  if 0 ≤ k then state.get? k.toNat else none

/-- One statement `if (0 <= k && k < numkeys && state[k]) { mask |= bit; }` on a `uint8_t` mask.
The read of `state[k]` happens only after both comparisons succeeded (short-circuit `&&`);
the result is `none` when that read is out of bounds. -/
def keyBit (state : List Bool) (numkeys : Int) (k : Int) (bit : Nat) (mask : Nat) : Option Nat :=
  if 0 ≤ k then
    if k < numkeys then
      match readKey state k with
      | none => none
      | some pressed => if pressed then some ((mask ||| bit) % 256) else some mask
    else some mask
  else some mask

/-- Embeds `uint8_t lunaboy_read_keys4(int a, int b, int c, int d)`, the same text in both copies of
the file. `none` stands for an out-of-bounds read of the keyboard array. -/
def lunaboy_read_keys4 (kb : KeyboardState) (a b c d : Int) : Option Nat :=
  let numkeys := kb.numkeys
  let mask : Nat := 0
  match kb.state with
  | none => some 0
  | some state =>
    (keyBit state numkeys a 0b0001 mask).bind fun mask =>
    (keyBit state numkeys b 0b0010 mask).bind fun mask =>
    (keyBit state numkeys c 0b0100 mask).bind fun mask =>
    (keyBit state numkeys d 0b1000 mask).bind fun mask =>
    some mask

/-- Key `k` counts as pressed: it is a valid index and the array holds `true` there. -/
def keyPressed (state : List Bool) (numkeys : Int) (k : Int) : Prop :=
  0 ≤ k ∧ k < numkeys ∧ state.get? k.toNat = some true

/-! ## Audio session -/

/-- Modelled from the spec: the type `SDL_AudioFormat` and the constant `SDL_AUDIO_F32`
("32-bit float samples") come from the SDL header, which is not part of the sources.
Every other format code is kept as a number. -/
inductive SDL_AudioFormat where
  | SDL_AUDIO_F32
  | other (code : Nat)
  deriving DecidableEq, Repr

/-- The three fields of `SDL_AudioSpec`. -/
structure SDL_AudioSpec where
  format : SDL_AudioFormat
  channels : Int
  freq : Int
  deriving DecidableEq, Repr

/-- Modelled from the spec: `SDL_AUDIO_DEVICE_DEFAULT_PLAYBACK` ("a default playback device")
is a constant of the SDL header, which is not part of the sources. -/
def SDL_AUDIO_DEVICE_DEFAULT_PLAYBACK : Nat := 0xFFFFFFFF

/-- The SDL calls the audio functions make, with their arguments. -/
inductive Call where
  | SDL_DestroyAudioStream (stream : Nat)
  | SDL_CloseAudioDevice (devid : Nat)
  | SDL_OpenAudioDevice (devid : Nat) (spec : SDL_AudioSpec)
  | SDL_GetAudioDeviceFormat (devid : Nat) (spec : SDL_AudioSpec)
  | SDL_CreateAudioStream (src_spec dst_spec : SDL_AudioSpec)
  | SDL_BindAudioStream (devid stream : Nat)
  | SDL_ResumeAudioDevice (devid : Nat)
  | SDL_PutAudioStreamData (stream ptr : Nat) (len : Int)
  | SDL_GetAudioStreamQueued (stream : Nat)
  deriving DecidableEq, Repr

/-- The two statics of the file and the log of SDL calls made so far. -/
structure Machine where
  g_audio_device : Nat
  g_audio_stream : Nat
  calls : List Call
  deriving DecidableEq, Repr

/-- The state at program start: `g_audio_device = 0`, `g_audio_stream = NULL`. -/
def initial : Machine := { g_audio_device := 0, g_audio_stream := 0, calls := [] }

/-- Record one SDL call. -/
def Machine.call (m : Machine) (c : Call) : Machine :=
  { m with calls := m.calls ++ [c] }

/-- What SDL answers to the calls of one `lunaboy_audio_open`. -/
structure OpenResults where
  /-- Return value of `SDL_OpenAudioDevice`, `0` on failure. -/
  SDL_OpenAudioDevice : Nat
  /-- Return value of `SDL_GetAudioDeviceFormat`. -/
  SDL_GetAudioDeviceFormat : Bool
  /-- Contents of `dst_spec` when `SDL_GetAudioDeviceFormat` returns, successful or not. -/
  dst_spec : SDL_AudioSpec
  /-- Return value of `SDL_CreateAudioStream`, `0` for `NULL`. -/
  SDL_CreateAudioStream : Nat
  /-- Return value of `SDL_BindAudioStream`. -/
  SDL_BindAudioStream : Bool
  /-- Return value of `SDL_ResumeAudioDevice`. -/
  SDL_ResumeAudioDevice : Bool
  deriving DecidableEq, Repr

/-- Embeds `bool lunaboy_audio_open(int sample_rate, int channels)`; `p` holds what SDL
answers to each call, `m0` the statics and the call log on entry. -/
def lunaboy_audio_open (p : OpenResults) (m0 : Machine) (sample_rate channels : Int) :
    Bool × Machine :=
  let m1 : Machine :=
    if m0.g_audio_stream ≠ 0 then
      { m0.call (.SDL_DestroyAudioStream m0.g_audio_stream) with g_audio_stream := 0 }
    else m0
  let m2 : Machine :=
    if m1.g_audio_device ≠ 0 then
      { m1.call (.SDL_CloseAudioDevice m1.g_audio_device) with g_audio_device := 0 }
    else m1
  let src_spec : SDL_AudioSpec :=
    { format := .SDL_AUDIO_F32, channels := channels, freq := sample_rate }
  let m3 : Machine :=
    { m2.call (.SDL_OpenAudioDevice SDL_AUDIO_DEVICE_DEFAULT_PLAYBACK src_spec) with
      g_audio_device := p.SDL_OpenAudioDevice }
  if m3.g_audio_device = 0 then (false, m3)
  else
    let dst_spec0 : SDL_AudioSpec := src_spec
    let m4 : Machine := m3.call (.SDL_GetAudioDeviceFormat m3.g_audio_device dst_spec0)
    let dst_spec : SDL_AudioSpec :=
      if !p.SDL_GetAudioDeviceFormat then src_spec else p.dst_spec
    let m5 : Machine :=
      { m4.call (.SDL_CreateAudioStream src_spec dst_spec) with
        g_audio_stream := p.SDL_CreateAudioStream }
    if m5.g_audio_stream = 0 then
      (false, { m5.call (.SDL_CloseAudioDevice m5.g_audio_device) with g_audio_device := 0 })
    else
      let m6 : Machine := m5.call (.SDL_BindAudioStream m5.g_audio_device m5.g_audio_stream)
      if !p.SDL_BindAudioStream then
        let m7 : Machine :=
          { m6.call (.SDL_DestroyAudioStream m6.g_audio_stream) with g_audio_stream := 0 }
        (false, { m7.call (.SDL_CloseAudioDevice m7.g_audio_device) with g_audio_device := 0 })
      else
        let m8 : Machine := m6.call (.SDL_ResumeAudioDevice m6.g_audio_device)
        if !p.SDL_ResumeAudioDevice then
          let m9 : Machine :=
            { m8.call (.SDL_DestroyAudioStream m8.g_audio_stream) with g_audio_stream := 0 }
          (false, { m9.call (.SDL_CloseAudioDevice m9.g_audio_device) with g_audio_device := 0 })
        else (true, m8)

/-- Embeds `bool lunaboy_audio_queue(const void *ptr, int len_bytes)`; `put` is what
`SDL_PutAudioStreamData` answers. -/
def lunaboy_audio_queue (put : Bool) (m : Machine) (ptr : Nat) (len_bytes : Int) :
    Bool × Machine :=
  if m.g_audio_stream = 0 then (false, m)
  else (put, m.call (.SDL_PutAudioStreamData m.g_audio_stream ptr len_bytes))

/-- Embeds `int lunaboy_audio_queued_bytes(void)`; `queued` is what `SDL_GetAudioStreamQueued`
answers. -/
def lunaboy_audio_queued_bytes (queued : Int) (m : Machine) : Int × Machine :=
  if m.g_audio_stream = 0 then (0, m)
  else (queued, m.call (.SDL_GetAudioStreamQueued m.g_audio_stream))

/-- Embeds `void lunaboy_audio_close(void)`. -/
def lunaboy_audio_close (m0 : Machine) : Machine :=
  let m1 : Machine :=
    if m0.g_audio_stream ≠ 0 then
      { m0.call (.SDL_DestroyAudioStream m0.g_audio_stream) with g_audio_stream := 0 }
    else m0
  let m2 : Machine :=
    if m1.g_audio_device ≠ 0 then
      { m1.call (.SDL_CloseAudioDevice m1.g_audio_device) with g_audio_device := 0 }
    else m1
  m2

/-- The machine after `n` consecutive calls of `lunaboy_audio_close`. -/
def closeTimes : Nat → Machine → Machine
  | 0, m => m
  | n + 1, m => closeTimes n (lunaboy_audio_close m)

/-- One call of an audio function by the application, with the answers SDL gives during it. -/
inductive Op where
  | audio_open (p : OpenResults) (sample_rate channels : Int)
  | audio_queue (put : Bool) (ptr : Nat) (len_bytes : Int)
  | audio_queued_bytes (queued : Int)
  | audio_close

/-- The machine after one call. -/
def step (m : Machine) : Op → Machine
  | .audio_open p sample_rate channels => (lunaboy_audio_open p m sample_rate channels).2
  | .audio_queue put ptr len_bytes => (lunaboy_audio_queue put m ptr len_bytes).2
  | .audio_queued_bytes queued => (lunaboy_audio_queued_bytes queued m).2
  | .audio_close => lunaboy_audio_close m

/-- The machine after a finite sequence of calls. -/
def run (m : Machine) (ops : List Op) : Machine :=
  ops.foldl step m

/-- The release calls owed for a pair of handles: the stream first, then the device,
each only when held. -/
def releaseCalls (device stream : Nat) : List Call :=
  (if stream ≠ 0 then [Call.SDL_DestroyAudioStream stream] else []) ++
  (if device ≠ 0 then [Call.SDL_CloseAudioDevice device] else [])

/-- The requested format of an open: 32-bit float at the given rate and channel count. -/
def requestedSpec (sample_rate channels : Int) : SDL_AudioSpec :=
  { format := .SDL_AUDIO_F32, channels := channels, freq := sample_rate }

/-- The stream a call of `lunaboy_audio_open` creates (`0` for none): `SDL_CreateAudioStream`
is reached only after the device was opened. -/
def createdStream (p : OpenResults) : Nat :=
  if p.SDL_OpenAudioDevice = 0 then 0 else p.SDL_CreateAudioStream

/-- The destination format handed to `SDL_CreateAudioStream`, as the specification words it:
the format the device reports when the query succeeds, the requested format otherwise. -/
def destinationSpec (p : OpenResults) (sample_rate channels : Int) : SDL_AudioSpec :=
  if p.SDL_GetAudioDeviceFormat = true then p.dst_spec else requestedSpec sample_rate channels

/-- The calls that follow a successful device open up to the first failing step:
format query, stream creation, bind, resume. None of them releases anything. -/
def acquireCalls (p : OpenResults) (sample_rate channels : Int) : List Call :=
  if p.SDL_OpenAudioDevice = 0 then []
  else
    [Call.SDL_GetAudioDeviceFormat p.SDL_OpenAudioDevice (requestedSpec sample_rate channels),
     Call.SDL_CreateAudioStream (requestedSpec sample_rate channels)
       (destinationSpec p sample_rate channels)] ++
    (if p.SDL_CreateAudioStream = 0 then []
     else
      [Call.SDL_BindAudioStream p.SDL_OpenAudioDevice p.SDL_CreateAudioStream] ++
      (if p.SDL_BindAudioStream = true then
        [Call.SDL_ResumeAudioDevice p.SDL_OpenAudioDevice]
       else []))

/-- A request to create a stream. -/
def Call.isCreateStream : Call → Bool
  | .SDL_CreateAudioStream _ _ => true
  | _ => false

/-- Both handles present or both absent. -/
def paired (m : Machine) : Prop :=
  m.g_audio_stream ≠ 0 ↔ m.g_audio_device ≠ 0

/-! ## Theorems -/

theorem keyBit_eq (state : List Bool) (numkeys k : Int) (bit mask : Nat)
    (h : numkeys = state.length) :
    keyBit state numkeys k bit mask =
      some (if 0 ≤ k ∧ k < numkeys ∧ state.get? k.toNat = some true
            then (mask ||| bit) % 256 else mask) := by
  unfold keyBit readKey
  by_cases h0 : 0 ≤ k
  · by_cases h1 : k < numkeys
    · have hlt : k.toNat < state.length := by omega
      simp only [h0, h1, if_true, true_and]
      rw [List.get?_eq_get hlt]
      cases state.get ⟨k.toNat, hlt⟩ <;> simp
    · simp [h0, h1]
  · simp [h0]

/-- The `none` of the embedding is live: were `numkeys` larger than the array, the guarded
read would leave it. -/
theorem keyBit_out_of_bounds : keyBit [true] 3 2 0b0001 0 = none := by
  decide

/-- C9: with the keyboard array unavailable `lunaboy_read_keys4` returns 0; with an array of
`numkeys` entries it returns a mask (no out-of-bounds read happens) whose bit `i` is set exactly
when the `i`-th argument is a valid index holding `true`, and which is below 16, so that every
bit from 4 upwards is clear. -/
theorem read_keys4_mask (a b c d : Int) (state : List Bool) (numkeys : Int)
    (h : numkeys = state.length) :
    lunaboy_read_keys4 ⟨none, numkeys⟩ a b c d = some 0 ∧
    ∃ mask, lunaboy_read_keys4 ⟨some state, numkeys⟩ a b c d = some mask ∧
      (mask.testBit 0 = true ↔ keyPressed state numkeys a) ∧
      (mask.testBit 1 = true ↔ keyPressed state numkeys b) ∧
      (mask.testBit 2 = true ↔ keyPressed state numkeys c) ∧
      (mask.testBit 3 = true ↔ keyPressed state numkeys d) ∧
      mask < 16 ∧ ∀ i, 4 ≤ i → mask.testBit i = false := by
  refine ⟨rfl, ?_⟩
  simp only [lunaboy_read_keys4, keyBit_eq _ _ _ _ _ h, Option.some_bind, keyPressed]
  refine ⟨_, rfl, ?_⟩
  have hhi : ∀ m : Nat, m < 16 → ∀ i, 4 ≤ i → m.testBit i = false := by
    intro m hm i hi
    apply Nat.testBit_lt_two_pow
    calc m < 2 ^ 4 := hm
      _ ≤ 2 ^ i := Nat.pow_le_pow_right (by decide) hi
  by_cases ha : 0 ≤ a ∧ a < numkeys ∧ state.get? a.toNat = some true <;>
  by_cases hb : 0 ≤ b ∧ b < numkeys ∧ state.get? b.toNat = some true <;>
  by_cases hc : 0 ≤ c ∧ c < numkeys ∧ state.get? c.toNat = some true <;>
  by_cases hd : 0 ≤ d ∧ d < numkeys ∧ state.get? d.toNat = some true <;>
  simp only [ha, hb, hc, hd, if_true, if_false] <;>
  exact ⟨by decide, by decide, by decide, by decide, by decide, hhi _ (by decide)⟩

/-- C9, an instance: a three-key array with keys 0 and 2 down, asked about 0, 1, 2 and 7. -/
theorem read_keys4_mask_witness :
    ((3 : Int) = ([true, false, true] : List Bool).length) ∧
    (lunaboy_read_keys4 ⟨none, 3⟩ 0 1 2 7 = some 0 ∧
    ∃ mask, lunaboy_read_keys4 ⟨some [true, false, true], 3⟩ 0 1 2 7 = some mask ∧
      (mask.testBit 0 = true ↔ keyPressed [true, false, true] 3 0) ∧
      (mask.testBit 1 = true ↔ keyPressed [true, false, true] 3 1) ∧
      (mask.testBit 2 = true ↔ keyPressed [true, false, true] 3 2) ∧
      (mask.testBit 3 = true ↔ keyPressed [true, false, true] 3 7) ∧
      mask < 16 ∧ ∀ i, 4 ≤ i → mask.testBit i = false) :=
  ⟨by decide, read_keys4_mask 0 1 2 7 [true, false, true] 3 (by decide)⟩

/-! ### The shape of one `lunaboy_audio_open` -/

theorem open_ret (p : OpenResults) (m : Machine) (sample_rate channels : Int) :
    (lunaboy_audio_open p m sample_rate channels).1 =
      (decide (p.SDL_OpenAudioDevice ≠ 0) && decide (p.SDL_CreateAudioStream ≠ 0) &&
        p.SDL_BindAudioStream && p.SDL_ResumeAudioDevice) := by
  unfold lunaboy_audio_open
  simp only [Machine.call]
  split_ifs <;> simp_all

theorem open_handles (p : OpenResults) (m : Machine) (sample_rate channels : Int) :
    (lunaboy_audio_open p m sample_rate channels).2.g_audio_device =
        (if (lunaboy_audio_open p m sample_rate channels).1 then p.SDL_OpenAudioDevice else 0) ∧
    (lunaboy_audio_open p m sample_rate channels).2.g_audio_stream =
        (if (lunaboy_audio_open p m sample_rate channels).1 then p.SDL_CreateAudioStream
         else 0) := by
  unfold lunaboy_audio_open
  simp only [Machine.call]
  split_ifs <;> simp_all

theorem open_calls (p : OpenResults) (m : Machine) (sample_rate channels : Int) :
    (lunaboy_audio_open p m sample_rate channels).2.calls =
      m.calls ++ releaseCalls m.g_audio_device m.g_audio_stream ++
        [Call.SDL_OpenAudioDevice SDL_AUDIO_DEVICE_DEFAULT_PLAYBACK
          (requestedSpec sample_rate channels)] ++
        acquireCalls p sample_rate channels ++
        (if (lunaboy_audio_open p m sample_rate channels).1 then []
         else releaseCalls p.SDL_OpenAudioDevice (createdStream p)) := by
  obtain ⟨d, q, ds, s, b, r⟩ := p
  obtain ⟨md, ms, mc⟩ := m
  by_cases h1 : ms = 0 <;> by_cases h2 : md = 0 <;> by_cases h3 : d = 0 <;>
  by_cases h4 : s = 0 <;> cases q <;> cases b <;> cases r <;>
  simp [lunaboy_audio_open, Machine.call, releaseCalls, acquireCalls, createdStream,
    requestedSpec, destinationSpec, h1, h2, h3, h4]

/-- C1: `lunaboy_audio_open` returns true exactly when the device open gave a non-zero id, the
stream creation gave a non-null stream, and bind and resume both succeeded; the answer of the
format query (its return value and what it wrote) never changes the return value; on true the
two handles are the new device and the new stream, on false both are absent. -/
theorem audio_open_postcondition (p : OpenResults) (m : Machine) (sample_rate channels : Int) :
    ((lunaboy_audio_open p m sample_rate channels).1 = true ↔
      (p.SDL_OpenAudioDevice ≠ 0 ∧ p.SDL_CreateAudioStream ≠ 0 ∧
        p.SDL_BindAudioStream = true ∧ p.SDL_ResumeAudioDevice = true)) ∧
    (∀ (q : Bool) (written : SDL_AudioSpec),
      (lunaboy_audio_open { p with SDL_GetAudioDeviceFormat := q, dst_spec := written }
        m sample_rate channels).1 = (lunaboy_audio_open p m sample_rate channels).1) ∧
    (lunaboy_audio_open p m sample_rate channels).2.g_audio_device =
      (if (lunaboy_audio_open p m sample_rate channels).1 then p.SDL_OpenAudioDevice else 0) ∧
    (lunaboy_audio_open p m sample_rate channels).2.g_audio_stream =
      (if (lunaboy_audio_open p m sample_rate channels).1 then p.SDL_CreateAudioStream
       else 0) := by
  refine ⟨?_, ?_, (open_handles p m sample_rate channels).1,
    (open_handles p m sample_rate channels).2⟩
  · rw [open_ret]
    simp [and_assoc]
  · intro q written
    rw [open_ret, open_ret]

/-- C1, an instance: a first open at 44100 Hz stereo where every SDL step succeeds. -/
theorem audio_open_postcondition_witness :
    (lunaboy_audio_open ⟨2, true, ⟨.SDL_AUDIO_F32, 2, 48000⟩, 4096, true, true⟩
      initial 44100 2).1 = true ∧
    (lunaboy_audio_open ⟨2, true, ⟨.SDL_AUDIO_F32, 2, 48000⟩, 4096, true, true⟩
      initial 44100 2).2.g_audio_device = 2 ∧
    (lunaboy_audio_open ⟨2, true, ⟨.SDL_AUDIO_F32, 2, 48000⟩, 4096, true, true⟩
      initial 44100 2).2.g_audio_stream = 4096 := by
  have h := audio_open_postcondition ⟨2, true, ⟨.SDL_AUDIO_F32, 2, 48000⟩, 4096, true, true⟩
    initial 44100 2
  have hret := h.1.mpr ⟨by decide, by decide, rfl, rfl⟩
  refine ⟨hret, ?_, ?_⟩
  · rw [h.2.2.1, hret]; rfl
  · rw [h.2.2.2, hret]; rfl

/-- C10: once the device open succeeded, the call log continues with the format query and
then the stream-creation request, whose source format is 32-bit float with the `channels` and
`sample_rate` arguments and whose destination format is what the query reported when it
succeeded and the source format when it failed, whatever the failed query wrote; no other
stream-creation request follows. -/
theorem audio_open_stream_formats (p : OpenResults) (m : Machine)
    (sample_rate channels : Int) (hopen : p.SDL_OpenAudioDevice ≠ 0) :
    ∃ rest : List Call,
      (lunaboy_audio_open p m sample_rate channels).2.calls =
        m.calls ++ releaseCalls m.g_audio_device m.g_audio_stream ++
          [Call.SDL_OpenAudioDevice SDL_AUDIO_DEVICE_DEFAULT_PLAYBACK
            { format := .SDL_AUDIO_F32, channels := channels, freq := sample_rate },
           Call.SDL_GetAudioDeviceFormat p.SDL_OpenAudioDevice
            { format := .SDL_AUDIO_F32, channels := channels, freq := sample_rate },
           Call.SDL_CreateAudioStream
            { format := .SDL_AUDIO_F32, channels := channels, freq := sample_rate }
            (if p.SDL_GetAudioDeviceFormat = true then p.dst_spec
             else { format := .SDL_AUDIO_F32, channels := channels, freq := sample_rate })] ++
          rest ∧
      ∀ c ∈ rest, c.isCreateStream = false := by
  refine ⟨(if p.SDL_CreateAudioStream = 0 then []
     else
      [Call.SDL_BindAudioStream p.SDL_OpenAudioDevice p.SDL_CreateAudioStream] ++
      (if p.SDL_BindAudioStream = true then
        [Call.SDL_ResumeAudioDevice p.SDL_OpenAudioDevice]
       else [])) ++
    (if (lunaboy_audio_open p m sample_rate channels).1 then []
     else releaseCalls p.SDL_OpenAudioDevice (createdStream p)), ?_, ?_⟩
  · rw [open_calls]
    simp [acquireCalls, hopen, requestedSpec, destinationSpec]
  · intro c hc
    unfold releaseCalls at hc
    split_ifs at hc <;> simp at hc <;> (try casesm* _ ∨ _) <;> subst_vars <;> rfl

/-- C10, an instance: the device opens, the format query fails after scribbling over the
record, and the stream is created with destination equal to the source. -/
theorem audio_open_stream_formats_witness :
    ((3 : Nat) ≠ 0) ∧
    ∃ rest : List Call,
      (lunaboy_audio_open ⟨3, false, ⟨.other 7, 6, 96000⟩, 8192, true, true⟩
          initial 44100 2).2.calls =
        initial.calls ++ releaseCalls initial.g_audio_device initial.g_audio_stream ++
          [Call.SDL_OpenAudioDevice SDL_AUDIO_DEVICE_DEFAULT_PLAYBACK
            { format := .SDL_AUDIO_F32, channels := 2, freq := 44100 },
           Call.SDL_GetAudioDeviceFormat 3
            { format := .SDL_AUDIO_F32, channels := 2, freq := 44100 },
           Call.SDL_CreateAudioStream
            { format := .SDL_AUDIO_F32, channels := 2, freq := 44100 }
            (if false = true then ⟨.other 7, 6, 96000⟩
             else { format := .SDL_AUDIO_F32, channels := 2, freq := 44100 })] ++
          rest ∧
      ∀ c ∈ rest, c.isCreateStream = false :=
  ⟨by decide, audio_open_stream_formats ⟨3, false, ⟨.other 7, 6, 96000⟩, 8192, true, true⟩
    initial 44100 2 (by decide)⟩

/-! ### Close -/

theorem close_eq (m : Machine) :
    lunaboy_audio_close m =
      { g_audio_device := 0, g_audio_stream := 0,
        calls := m.calls ++ releaseCalls m.g_audio_device m.g_audio_stream } := by
  obtain ⟨md, ms, mc⟩ := m
  by_cases h1 : ms = 0 <;> by_cases h2 : md = 0 <;>
  simp [lunaboy_audio_close, Machine.call, releaseCalls, h1, h2]

theorem closeTimes_succ_eq (n : Nat) (m : Machine) :
    closeTimes (n + 1) m =
      { g_audio_device := 0, g_audio_stream := 0,
        calls := m.calls ++ releaseCalls m.g_audio_device m.g_audio_stream } := by
  induction n generalizing m with
  | zero => simp [closeTimes, close_eq]
  | succ k ih =>
    rw [closeTimes, ih, close_eq]
    simp [releaseCalls]

/-- C4: `n ≥ 1` consecutive calls of `lunaboy_audio_close` leave both handles absent and add to
the call log exactly the release calls owed for the handles held at the start (destroy-stream
if a stream was held, then close-device if a device was held); on a state with both handles
absent one close changes nothing and makes no call; and a close right after any open leaves both
handles absent. -/
theorem audio_close_idempotent (m : Machine) (n : Nat) (hn : 1 ≤ n) :
    (closeTimes n m).g_audio_device = 0 ∧ (closeTimes n m).g_audio_stream = 0 ∧
    (closeTimes n m).calls =
      m.calls ++
        ((if m.g_audio_stream ≠ 0 then [Call.SDL_DestroyAudioStream m.g_audio_stream]
          else []) ++
         (if m.g_audio_device ≠ 0 then [Call.SDL_CloseAudioDevice m.g_audio_device]
          else [])) ∧
    lunaboy_audio_close { g_audio_device := 0, g_audio_stream := 0, calls := m.calls } =
      { g_audio_device := 0, g_audio_stream := 0, calls := m.calls } ∧
    ∀ (p : OpenResults) (sample_rate channels : Int),
      (lunaboy_audio_close (lunaboy_audio_open p m sample_rate channels).2).g_audio_device = 0 ∧
      (lunaboy_audio_close (lunaboy_audio_open p m sample_rate channels).2).g_audio_stream = 0 := by
  obtain ⟨k, rfl⟩ : ∃ k, n = k + 1 := ⟨n - 1, by omega⟩
  rw [closeTimes_succ_eq]
  refine ⟨rfl, rfl, rfl, ?_, ?_⟩
  · rw [close_eq]; simp [releaseCalls]
  · intro p sample_rate channels
    rw [close_eq]
    exact ⟨rfl, rfl⟩

/-- C4, an instance: three closes on a live session (device 2, stream 4096). -/
theorem audio_close_idempotent_witness :
    (1 ≤ 3) ∧ (closeTimes 3 ⟨2, 4096, []⟩).g_audio_device = 0 ∧
    (closeTimes 3 ⟨2, 4096, []⟩).g_audio_stream = 0 ∧
    (closeTimes 3 ⟨2, 4096, []⟩).calls =
      [Call.SDL_DestroyAudioStream 4096, Call.SDL_CloseAudioDevice 2] :=
  have h := audio_close_idempotent ⟨2, 4096, []⟩ 3 (by decide)
  ⟨by decide, h.1, h.2.1, h.2.2.1⟩

/-! ### Queue and QueuedBytes -/

/-- C7: with the stream handle absent `lunaboy_audio_queue` returns false and leaves the machine
as it was (same handles, no call logged), for every buffer pointer and every length, and a
`lunaboy_audio_queued_bytes` right after it returns 0. -/
theorem audio_queue_inactive (put : Bool) (m : Machine) (ptr : Nat) (len_bytes queued : Int)
    (h : m.g_audio_stream = 0) :
    lunaboy_audio_queue put m ptr len_bytes = (false, m) ∧
    (lunaboy_audio_queued_bytes queued (lunaboy_audio_queue put m ptr len_bytes).2).1 = 0 := by
  simp [lunaboy_audio_queue, lunaboy_audio_queued_bytes, h]

/-- C7, an instance: queueing a negative length at program start. -/
theorem audio_queue_inactive_witness :
    initial.g_audio_stream = 0 ∧
    lunaboy_audio_queue true initial 4096 (-8) = (false, initial) ∧
    (lunaboy_audio_queued_bytes 512 (lunaboy_audio_queue true initial 4096 (-8)).2).1 = 0 :=
  ⟨rfl, audio_queue_inactive true initial 4096 (-8) 512 rfl⟩

/-- C8: with the stream handle absent `lunaboy_audio_queued_bytes` returns 0 and leaves the
machine as it was (no call logged); the stream handle is absent at program start, after every
close and after every open that returned false; and in every state the query leaves both handles
as they were. -/
theorem audio_queued_bytes_inactive (queued : Int) (m : Machine) (h : m.g_audio_stream = 0) :
    lunaboy_audio_queued_bytes queued m = (0, m) ∧
    initial.g_audio_stream = 0 ∧
    (∀ m1 : Machine, (lunaboy_audio_close m1).g_audio_stream = 0) ∧
    (∀ (p : OpenResults) (m1 : Machine) (sample_rate channels : Int),
      (lunaboy_audio_open p m1 sample_rate channels).1 = false →
      (lunaboy_audio_open p m1 sample_rate channels).2.g_audio_stream = 0) ∧
    (∀ (q : Int) (m1 : Machine),
      (lunaboy_audio_queued_bytes q m1).2.g_audio_device = m1.g_audio_device ∧
      (lunaboy_audio_queued_bytes q m1).2.g_audio_stream = m1.g_audio_stream) := by
  refine ⟨by simp [lunaboy_audio_queued_bytes, h], rfl, ?_, ?_, ?_⟩
  · intro m1; rw [close_eq]
  · intro p m1 sample_rate channels hfail
    rw [(open_handles p m1 sample_rate channels).2, hfail]; rfl
  · intro q m1
    unfold lunaboy_audio_queued_bytes
    split_ifs <;> exact ⟨rfl, rfl⟩

/-- C8, an instance: the query after a close of a live session, SDL ready to answer 512. -/
theorem audio_queued_bytes_inactive_witness :
    (lunaboy_audio_close ⟨2, 4096, []⟩).g_audio_stream = 0 ∧
    lunaboy_audio_queued_bytes 512 (lunaboy_audio_close ⟨2, 4096, []⟩) =
      (0, lunaboy_audio_close ⟨2, 4096, []⟩) :=
  ⟨by decide,
    (audio_queued_bytes_inactive 512 (lunaboy_audio_close ⟨2, 4096, []⟩) (by decide)).1⟩

/-- C6, as the code has it: `lunaboy_audio_queued_bytes` returns 0 when no stream is held and
otherwise exactly what `SDL_GetAudioStreamQueued` reported, so the result is non-negative
exactly when no stream is held or the reported value is non-negative. -/
theorem audio_queued_bytes_value (queued : Int) (m : Machine) :
    (lunaboy_audio_queued_bytes queued m).1 = (if m.g_audio_stream = 0 then 0 else queued) ∧
    (0 ≤ (lunaboy_audio_queued_bytes queued m).1 ↔
      (m.g_audio_stream = 0 ∨ 0 ≤ queued)) := by
  unfold lunaboy_audio_queued_bytes
  split_ifs with h <;> simp [h]

/-- C6 fails as stated: after a successful open from program start, a query to which SDL
answers -1 (its failure value) returns -1, which is negative. -/
theorem audio_queued_bytes_negative :
    (lunaboy_audio_open ⟨2, true, ⟨.SDL_AUDIO_F32, 2, 48000⟩, 4096, true, true⟩
      initial 44100 2).1 = true ∧
    (lunaboy_audio_queued_bytes (-1)
      (lunaboy_audio_open ⟨2, true, ⟨.SDL_AUDIO_F32, 2, 48000⟩, 4096, true, true⟩
        initial 44100 2).2).1 = -1 ∧
    ¬ (0 ≤ (lunaboy_audio_queued_bytes (-1)
      (lunaboy_audio_open ⟨2, true, ⟨.SDL_AUDIO_F32, 2, 48000⟩, 4096, true, true⟩
        initial 44100 2).2).1) := by
  decide

/-! ### The session invariant -/

theorem step_paired (m : Machine) (op : Op) (h : paired m) : paired (step m op) := by
  cases op with
  | audio_open p sample_rate channels =>
    unfold paired step
    rw [(open_handles p m sample_rate channels).1, (open_handles p m sample_rate channels).2,
      open_ret]
    by_cases h1 : p.SDL_OpenAudioDevice = 0 <;> by_cases h2 : p.SDL_CreateAudioStream = 0 <;>
    cases p.SDL_BindAudioStream <;> cases p.SDL_ResumeAudioDevice <;> simp [h1, h2]
  | audio_queue put ptr len_bytes =>
    unfold paired step lunaboy_audio_queue
    split_ifs <;> exact h
  | audio_queued_bytes queued =>
    unfold paired step lunaboy_audio_queued_bytes
    split_ifs <;> exact h
  | audio_close =>
    unfold paired step
    rw [close_eq]

theorem run_paired (ops : List Op) (m : Machine) (h : paired m) : paired (run m ops) := by
  induction ops generalizing m with
  | nil => exact h
  | cons op rest ih => exact ih (step m op) (step_paired m op h)

/-- C5: after any finite sequence of open, queue, queued-bytes and close calls from program
start, under any answers of SDL, the stream handle is present exactly when the device handle is;
and queue and queued-bytes leave both handles as they were in every state. -/
theorem session_handle_invariant (ops : List Op) :
    ((run initial ops).g_audio_stream ≠ 0 ↔ (run initial ops).g_audio_device ≠ 0) ∧
    (∀ (put : Bool) (m : Machine) (ptr : Nat) (len_bytes : Int),
      (lunaboy_audio_queue put m ptr len_bytes).2.g_audio_device = m.g_audio_device ∧
      (lunaboy_audio_queue put m ptr len_bytes).2.g_audio_stream = m.g_audio_stream) ∧
    (∀ (queued : Int) (m : Machine),
      (lunaboy_audio_queued_bytes queued m).2.g_audio_device = m.g_audio_device ∧
      (lunaboy_audio_queued_bytes queued m).2.g_audio_stream = m.g_audio_stream) := by
  refine ⟨run_paired ops initial (by simp [paired, initial]), ?_, ?_⟩
  · intro put m ptr len_bytes
    unfold lunaboy_audio_queue
    split_ifs <;> exact ⟨rfl, rfl⟩
  · intro queued m
    unfold lunaboy_audio_queued_bytes
    split_ifs <;> exact ⟨rfl, rfl⟩

end Lunaboy
